import Mathlib

/-!
Shallow embedding of the `rotations2d` module (file `rotations2d.py` of the
`rotations` repository): vectorized 2D rotation utilities.

Batches of 2D vectors are modelled as `List Vec2` with `Vec2 := ℝ × ℝ`;
batches of 2×2 matrices as `List Mat2` with `Mat2 := Matrix (Fin 2) (Fin 2) ℝ`.
Numpy floats are modelled as real numbers.  Numpy shape errors and Python
`TypeError`s are modelled with an explicit `Except PyErr` result.

The module imports its vector helpers from a sibling `vector_calculations`
module that is not among the sources; those helpers are modelled from the
spec's description of them (each such definition carries a doc comment
starting with `Modelled from the spec:`).
-/

/-- A 2D vector: one row of an `(npts, 2)` numpy array. -/
abbrev Vec2 : Type := ℝ × ℝ

/-- A 2×2 real matrix: one item of an `(npts, 2, 2)` numpy array. -/
abbrev Mat2 : Type := Matrix (Fin 2) (Fin 2) ℝ

/-- Errors surfacing from the numpy layer (`ValueError` for shape/broadcast
problems) or from Python itself (`TypeError` for a call arity mismatch). -/
inductive PyErr : Type where
  | valueError (msg : String)
  | typeError (msg : String)
deriving DecidableEq

/-- Modelled from the spec: per-item L2 norm, one entry of the batch result of
the external `elementwise_norm` helper of `vector_calculations`. -/
noncomputable def norm2 (v : Vec2) : ℝ :=
  Real.sqrt (v.1 ^ 2 + v.2 ^ 2)

/-- Modelled from the spec: per-item dot product, one entry of the batch
result of the external `elementwise_dot` helper of `vector_calculations`. -/
noncomputable def dot2 (a b : Vec2) : ℝ :=
  a.1 * b.1 + a.2 * b.2

/-- 2D cross product (the scalar `a.1 * b.2 - a.2 * b.1`), used to express the
signed angle between two 2D vectors. -/
noncomputable def cross2 (a b : Vec2) : ℝ :=
  a.1 * b.2 - a.2 * b.1

/-- Modelled from the spec: per-item L2 normalization `v / ‖v‖`, one row of
the external `normalized_vectors` helper of `vector_calculations`.  Division
by a zero norm is the real-number model of the NaN the float code produces. -/
noncomputable def unitize (v : Vec2) : Vec2 :=
  (v.1 / norm2 v, v.2 / norm2 v)

/-- Modelled from the spec: the external `normalized_vectors` helper of
`vector_calculations` — batch L2 normalization, row by row. -/
noncomputable def normalized_vectors (vs : List Vec2) : List Vec2 :=
  vs.map unitize

/-- Modelled from the spec: the signed angle (radians) required to rotate `a`
onto `b` in 2D, for one item of the external
`angles_between_list_of_vectors` helper of `vector_calculations`.  Under the
module's fixed sign convention (§4.1: `R θ = [[cos θ, sin θ], [-sin θ, cos θ]]`)
the angle `θ` carrying a unit vector `a` onto `b` satisfies `cos θ = a·b` and
`sin θ = -(a×b)`, so `θ` is the argument of the complex number
`a·b - i (a×b)`. -/
noncomputable def angle2 (a b : Vec2) : ℝ :=
  Complex.arg ⟨dot2 a b, -(cross2 a b)⟩

/-- Modelled from the spec: the external `angles_between_list_of_vectors`
helper of `vector_calculations` — the batch of signed angles between
corresponding items of two vector batches. -/
noncomputable def angles_between_list_of_vectors (v0 v1 : List Vec2) : List ℝ :=
  List.zipWith angle2 v0 v1

/-- The argument of `rotation_matrices_from_angles`: either a scalar angle or
a batch of angles (a 1D numpy array). -/
inductive AngleInput : Type where
  | scalar (θ : ℝ)
  | batch (angles : List ℝ)

/-- `np.atleast_1d`: a scalar becomes a length-1 batch, a batch is unchanged. -/
def np_atleast_1d : AngleInput → List ℝ
  | .scalar θ => [θ]
  | .batch l => l

/-- One item of the output of `rotation_matrices_from_angles`: the source
fills `R[i]` entrywise with `R[i,0,0] = R[i,1,1] = cos a`, `R[i,0,1] = sin a`,
`R[i,1,0] = -sin a`. -/
noncomputable def rotFromAngle (a : ℝ) : Mat2 :=
  !![Real.cos a, Real.sin a; -Real.sin a, Real.cos a]

/-- `rotation_matrices_from_angles` (rotations2d.py lines 88–125): broadcast
the input to a batch with `np.atleast_1d`, then build one 2×2 matrix per
angle. -/
noncomputable def rotation_matrices_from_angles (angles : AngleInput) : List Mat2 :=
  (np_atleast_1d angles).map rotFromAngle

/-- The matrix argument of `rotate_vector_collection`: either a single matrix
of shape `(2, 2)` — the shared mode — or a batch of shape `(npts, 2, 2)`.
The source dispatches on `np.shape(rotation_matrices) == (2, 2)`, which holds
exactly for the `shared` constructor. -/
inductive MatInput : Type where
  | shared (m : Mat2)
  | batched (ms : List Mat2)

/-- Application of a 2×2 matrix to a 2D vector: one column of
`np.dot(M, vectors.T)` in shared mode, equally one item of the einsum
contraction `ijk,ik->ij` in batched mode. -/
noncomputable def matvec (m : Mat2) (v : Vec2) : Vec2 :=
  (m 0 0 * v.1 + m 0 1 * v.2, m 1 0 * v.1 + m 1 1 * v.2)

/-- `np.einsum('ijk,ik->ij', ms, vs)`: the `j`/`k` axes are fixed at size 2
by the types; the shared `i` axis follows numpy broadcasting.  Equal lengths
contract item by item (`ms[i] · vs[i]`); a size-1 operand on the `i` axis is
broadcast against the other operand (the single matrix applied to every
vector, or every matrix to the single vector — with an empty result when the
other operand is empty); any other length mismatch raises a `ValueError` at
the contraction step. -/
noncomputable def np_einsum_ijk_ik_ij (ms : List Mat2) (vs : List Vec2) :
    Except PyErr (List Vec2) :=
  if ms.length = vs.length then
    Except.ok (List.zipWith matvec ms vs)
  else if ms.length = 1 then
    Except.ok (vs.map (matvec (ms.headD 1)))
  else if vs.length = 1 then
    Except.ok (ms.map (fun m => matvec m (vs.headD (0, 0))))
  else
    Except.error (PyErr.valueError "operands could not be broadcast together")

/-- `rotate_vector_collection` (rotations2d.py lines 16–60): if the matrix
argument has shape `(2, 2)` apply that one matrix to every vector
(`np.dot(rotation_matrices, vectors.T).T`), otherwise contract item by item
with `np.einsum('ijk,ik->ij', ...)`.  The source's `try/except TypeError`
only retries the identical einsum without the `optimize` keyword (for numpy
versions that lack it) and is functionally transparent (spec §4.3), so the
`optimize` flag is not modelled; shape errors (`ValueError`) are not caught
and propagate to the caller. -/
noncomputable def rotate_vector_collection (rotation_matrices : MatInput)
    (vectors : List Vec2) : Except PyErr (List Vec2) :=
  match rotation_matrices with
  | .shared m => Except.ok (vectors.map (matvec m))
  | .batched ms => np_einsum_ijk_ik_ij ms vectors

/-- `rotation_matrices_from_vectors` (rotations2d.py lines 128–169): normalize
both batches, take the signed angle between corresponding items, and build
the matrices from those angles.  (The source also computes a mask
`angles == 0.0` on line 167 but never uses it — dead code, spec §4.2.) -/
noncomputable def rotation_matrices_from_vectors (v0 v1 : List Vec2) : List Mat2 :=
  rotation_matrices_from_angles
    (AngleInput.batch
      (angles_between_list_of_vectors (normalized_vectors v0) (normalized_vectors v1)))

/-- The state of the process-wide numpy random generator, modelled abstractly
as a stream position: drawing advances the position, `np.random.seed(k)`
resets it to a position determined by the seed alone. -/
abbrev RngState : Type := ℕ

/-- Modelled from the spec: one uniform draw from `[0, 1)`.  The concrete
stream `k ↦ 1 / (k + 2)` realizes a deterministic sample in `[0, 1)` per
stream position, which is all the spec requires of the draw. -/
noncomputable def unitDraw (k : ℕ) : ℝ :=
  1 / (k + 2)

/-- Modelled from the spec: `np.random.random((npts, 2))` — one 2D sample per
item with components uniform in `[0, 1)`, consuming `2 * npts` positions of
the global stream. -/
noncomputable def npRandom2 (npts : ℕ) (s : RngState) : List Vec2 × RngState :=
  ((List.range npts).map (fun i => (unitDraw (s + 2 * i), unitDraw (s + 2 * i + 1))),
   s + 2 * npts)

/-- Modelled from the spec: `np.random.seed(seed)` — the global stream
position after seeding depends on the seed alone. -/
def npSeedState (seed : ℕ) : RngState :=
  seed

/-- The vector argument of `random_perpendicular_directions`: either a single
2D vector or a batch (the source applies `np.atleast_2d`). -/
inductive VecInput : Type where
  | single (v : Vec2)
  | batch (vs : List Vec2)

/-- `np.atleast_2d`: a single vector becomes a length-1 batch. -/
def np_atleast_2d : VecInput → List Vec2
  | .single v => [v]
  | .batch l => l

/-- The Gram–Schmidt rejection computed by `random_perpendicular_directions`
(rotations2d.py lines 195–204) for one item: `e_v_perp = e_w - (e_v·e_w) e_v`
with `e_v = v/‖v‖`, `e_w = w/‖w‖`. -/
noncomputable def perp_reject (v w : Vec2) : Vec2 :=
  ((unitize w).1 - dot2 (unitize v) (unitize w) * (unitize v).1,
   (unitize w).2 - dot2 (unitize v) (unitize w) * (unitize v).2)

/-- One item of the result of `random_perpendicular_directions`: the
renormalized rejection `e_v_perp / ‖e_v_perp‖` (rotations2d.py line 205).
The numpy code performs the same operations rowwise on the whole batch. -/
noncomputable def perp_pair (v w : Vec2) : Vec2 :=
  unitize (perp_reject v w)

/-- The random draw of `random_perpendicular_directions`: inside
`NumpyRNGContext(seed)`.  Modelled from the spec: the astropy context manager
saves the global random state on entry, seeds, and restores the saved state
on exit, so with a seed the draw comes from the seeded stream and the global
state is untouched; without a seed the draw consumes the global stream. -/
noncomputable def rpd_draw (npts : ℕ) (seed : Option ℕ) (s : RngState) : List Vec2 :=
  match seed with
  | some sd => (npRandom2 npts (npSeedState sd)).1
  | none => (npRandom2 npts s).1

/-- The global random state after the `NumpyRNGContext` block of
`random_perpendicular_directions`: restored to the entry state when a seed
was supplied, advanced by the draw otherwise. -/
noncomputable def rpd_state (npts : ℕ) (seed : Option ℕ) (s : RngState) : RngState :=
  match seed with
  | some _ => s
  | none => (npRandom2 npts s).2

/-- `random_perpendicular_directions` (rotations2d.py lines 172–205): promote
the input with `np.atleast_2d`, draw `w = np.random.random((npts, 2))` inside
`NumpyRNGContext(seed)`, then return the renormalized Gram–Schmidt rejection
of `e_w` from `e_v`, item by item, together with the resulting global random
state. -/
noncomputable def random_perpendicular_directions (v : VecInput) (seed : Option ℕ)
    (s : RngState) : List Vec2 × RngState :=
  let vl := np_atleast_2d v
  (List.zipWith perp_pair vl (rpd_draw vl.length seed s),
   rpd_state vl.length seed s)

/-- Python call semantics: applying a function object that declares exactly
one positional parameter to two positional arguments raises `TypeError`
before the function body runs. -/
def pyCallOneParamTwoArgs {α β γ : Type} (f : α → γ) (arg1 : α) (arg2 : β) :
    Except PyErr γ :=
  Except.error (PyErr.typeError "takes 1 positional argument but 2 were given")

/-- `random_rotation` (rotations2d.py lines 63–85): draw
`ran_angle = np.random.random(size=1) * np.pi` (here `u` is the uniform draw
from `[0, 1)`) and `ran_direction` (a normalized-then-shift-scaled random 2D
vector, taken as the parameter `ranDirection`), then evaluate
`ran_rot = rotation_matrices_from_angles(ran_angle, ran_direction)`.  That
call passes two positional arguments to a function whose signature
(line 88) takes exactly one, so every call raises `TypeError` at line 85,
before any rotation is applied.  (Were the call to succeed, `ran_rot` would
have shape `(1, 2, 2)`, not `(2, 2)`, and would be applied in batched mode.) -/
noncomputable def random_rotation (u : ℝ) (ranDirection : Vec2)
    (vectors : List Vec2) : Except PyErr (List Vec2) := do
  let ran_angle : List ℝ := [u * Real.pi]
  let ran_rot ← pyCallOneParamTwoArgs
    (fun angles => rotation_matrices_from_angles (AngleInput.batch angles))
    ran_angle ranDirection
  rotate_vector_collection (MatInput.batched ran_rot) vectors

/-- A 2D numpy array with explicit shape metadata `(rows, cols)`, needed to
model the shape errors of `rotation2d` faithfully (they depend on the array
shapes, not only on the row contents). -/
structure Arr2 : Type where
  rows : ℕ
  cols : ℕ
  data : List ℝ

/-- Python list repetition `l * n`. -/
def listRepeat (l : List ℝ) : ℕ → List ℝ
  | 0 => []
  | n + 1 => l ++ listRepeat l n

/-- `np.reshape` to a 2D shape: succeeds iff the element count matches
`rows * cols`, otherwise raises a `ValueError`. -/
def np_reshape (flat : List ℝ) (rows cols : ℕ) : Except PyErr Arr2 :=
  if flat.length = rows * cols then
    Except.ok ⟨rows, cols, flat⟩
  else
    Except.error (PyErr.valueError "cannot reshape array")

/-- A batch of 2D vectors viewed as an `(npts, 2)` array. -/
noncomputable def toArr2 (vs : List Vec2) : Arr2 :=
  ⟨vs.length, 2, (vs.map (fun v => [v.1, v.2])).flatten⟩

/-- Row `i` of an `Arr2` (entries beyond the data default to `0`; all uses
are within bounds). -/
noncomputable def arrRow (a : Arr2) (i : ℕ) : List ℝ :=
  (a.data.drop (i * a.cols)).take a.cols

/-- Modelled from the spec: the external `elementwise_dot` helper of
`vector_calculations` on full arrays — `np.sum(x * y, axis=1)`.  The
elementwise product broadcasts only when the shapes agree; mismatched shapes
(including `(0, 3)` against `(0, 2)`) raise a `ValueError`. -/
noncomputable def elementwise_dot (a b : Arr2) : Except PyErr (List ℝ) :=
  if a.rows = b.rows ∧ a.cols = b.cols then
    Except.ok ((List.range a.rows).map
      (fun i => (List.zipWith (fun x y => x * y) (arrRow a i) (arrRow b i)).sum))
  else
    Except.error (PyErr.valueError "operands could not be broadcast together")

/-- Assembling the result of `rotation2d`: `r = np.zeros((N, 2, 2))` filled
entrywise from the four dot-product batches. -/
noncomputable def buildMats (n : ℕ) (r11 r12 r21 r22 : List ℝ) : List Mat2 :=
  (List.range n).map
    (fun i => !![r11.getD i 0, r12.getD i 0; r21.getD i 0, r22.getD i 0])

/-- `rotation2d` (rotations2d.py lines 208–248): builds the reference basis
as the flat data `[1.0, 0.0] * N` (and `[0.0, 1.0] * N`) — `2 N` numbers —
reshaped to shape `(N, 3)`, then dots the basis rows against the normalized
input vectors.  The reshape of `2 N` elements into `(N, 3)` fails for every
`N ≥ 1`; for `N = 0` it trivially succeeds and the elementwise dot of the
`(0, 3)` basis against the `(0, 2)` vectors fails to broadcast. -/
noncomputable def rotation2d (ux uy : List Vec2) : Except PyErr (List Mat2) := do
  let n := ux.length
  let ex ← np_reshape (listRepeat [1.0, 0.0] n) n 3
  let ey ← np_reshape (listRepeat [0.0, 1.0] n) n 3
  let uxn := toArr2 (normalized_vectors ux)
  let uyn := toArr2 (normalized_vectors uy)
  let r11 ← elementwise_dot ex uxn
  let r12 ← elementwise_dot ex uyn
  let r21 ← elementwise_dot ey uxn
  let r22 ← elementwise_dot ey uyn
  return buildMats n r11 r12 r21 r22

/-! ### Helper lemmas -/

lemma zipWith_replicate_left {α β γ : Type} (f : α → β → γ) (x : α) :
    ∀ l : List β, List.zipWith f (List.replicate l.length x) l = l.map (f x) := by
  intro l
  induction l with
  | nil => rfl
  | cons a t ih => simp [List.replicate_succ, ih]

lemma norm2_unit_sq (v : Vec2) (h : norm2 v = 1) : v.1 ^ 2 + v.2 ^ 2 = 1 :=
  Real.sqrt_eq_one.mp h

lemma vec_ne_zero_sq_pos (v : Vec2) (h : v ≠ (0, 0)) : 0 < v.1 ^ 2 + v.2 ^ 2 := by
  rcases lt_or_eq_of_le (by positivity : (0:ℝ) ≤ v.1 ^ 2 + v.2 ^ 2) with hlt | heq
  · exact hlt
  · exfalso
    apply h
    have h1 : v.1 = 0 := by nlinarith [sq_nonneg v.1, sq_nonneg v.2]
    have h2 : v.2 = 0 := by nlinarith [sq_nonneg v.1, sq_nonneg v.2]
    calc v = (v.1, v.2) := rfl
    _ = (0, 0) := by rw [h1, h2]

/-! ### Claim theorems -/

/-- C1: For every real angle input θ (a scalar is broadcast to a length-1
batch), `rotation_matrices_from_angles` returns one 2×2 matrix per angle equal
to `[[cos θ, sin θ], [-sin θ, cos θ]]`; in particular
`rotation_matrices_from_angles([0])` is the 2×2 identity matrix, and for
angles `[0, π/2]` the result is `[[[1,0],[0,1]], [[0,1],[-1,0]]]`. -/
theorem rotation_matrices_from_angles_formula :
    (∀ θ : ℝ, rotation_matrices_from_angles (AngleInput.scalar θ) =
      [!![Real.cos θ, Real.sin θ; -Real.sin θ, Real.cos θ]]) ∧
    (∀ angles : List ℝ, rotation_matrices_from_angles (AngleInput.batch angles) =
      angles.map (fun θ => !![Real.cos θ, Real.sin θ; -Real.sin θ, Real.cos θ])) ∧
    rotation_matrices_from_angles (AngleInput.batch [0]) = [(1 : Mat2)] ∧
    rotation_matrices_from_angles (AngleInput.batch [0, Real.pi / 2]) =
      [!![1, 0; 0, 1], !![0, 1; -1, 0]] := by
  refine ⟨fun θ => rfl, fun angles => rfl, ?_, ?_⟩
  · simp [rotation_matrices_from_angles, np_atleast_1d, rotFromAngle, Matrix.one_fin_two]
  · simp [rotation_matrices_from_angles, np_atleast_1d, rotFromAngle,
      Real.cos_pi_div_two, Real.sin_pi_div_two]

/-- C3 (code bug): `random_rotation` never reaches the matrix-building or
rotation steps: it calls `rotation_matrices_from_angles` with two positional
arguments (line 85) while that function's signature takes exactly one
(line 88), so every call raises `TypeError` instead of returning a rotated
batch. -/
theorem random_rotation_raises_type_error :
    ∀ (u : ℝ) (ranDirection : Vec2) (vectors : List Vec2),
      random_rotation u ranDirection vectors =
        Except.error (PyErr.typeError "takes 1 positional argument but 2 were given") := by
  intro u d vs
  rfl

/-- C6: Two calls of `random_perpendicular_directions` with the same input
batch and the same non-`None` seed return identical results regardless of the
ambient global random state; a seeded call restores the global random state,
so a subsequent unseeded call returns exactly what it would have returned had
the seeded call never happened. -/
theorem seeded_perpendicular_deterministic_and_state_preserving :
    ∀ (v : VecInput) (sd : ℕ) (s1 s2 : RngState),
      (random_perpendicular_directions v (some sd) s1).1 =
        (random_perpendicular_directions v (some sd) s2).1 ∧
      (random_perpendicular_directions v (some sd) s1).2 = s1 ∧
      (∀ v2 : VecInput,
        random_perpendicular_directions v2 none
            ((random_perpendicular_directions v (some sd) s1).2) =
          random_perpendicular_directions v2 none s1) :=
  fun _ _ _ _ => ⟨rfl, rfl, fun _ => rfl⟩

/-- C7: applying a single 2×2 matrix in shared mode (triggered exactly by a
matrix argument of shape `(2, 2)`) to a batch of `N` vectors gives the same
result as applying an `N`-length batch of copies of that matrix in batched
mode. -/
theorem shared_mode_eq_replicated_batched_mode :
    ∀ (m : Mat2) (vectors : List Vec2),
      rotate_vector_collection (MatInput.shared m) vectors =
        rotate_vector_collection (MatInput.batched (List.replicate vectors.length m))
          vectors := by
  intro m vs
  simp [rotate_vector_collection, np_einsum_ijk_ik_ij, zipWith_replicate_left]

/-- Counterexample to C9 as stated: a batched-mode call whose matrix batch
has length 1 against two vectors — leading lengths `1 ≠ 2` — does not fail
with a dimension error: numpy einsum broadcasts the size-1 `i` axis and
silently applies the single matrix to every vector. -/
theorem batched_mode_broadcast_counterexample :
    [(1 : Mat2)].length ≠ [((1:ℝ), (0:ℝ)), ((0:ℝ), (1:ℝ))].length ∧
    rotate_vector_collection (MatInput.batched [(1 : Mat2)])
        [((1:ℝ), (0:ℝ)), ((0:ℝ), (1:ℝ))] =
      Except.ok [((1:ℝ), (0:ℝ)), ((0:ℝ), (1:ℝ))] := by
  constructor
  · decide
  · show np_einsum_ijk_ik_ij [(1 : Mat2)] [((1:ℝ), (0:ℝ)), ((0:ℝ), (1:ℝ))] = _
    rw [np_einsum_ijk_ik_ij]
    norm_num [matvec, Matrix.one_apply]

/-- C9 (amended): in batched mode (matrix argument not of shape `(2, 2)`)
there is no upfront length validation and the result is exactly what the
einsum contraction produces, returned to the caller unhandled: when the
matrix batch length differs from the vector batch length, a size-1 operand
on the shared axis is silently broadcast against the other operand (numpy
broadcasting), and every other mismatch fails with the broadcast
`ValueError` raised by the contraction step itself. -/
theorem batched_mode_broadcast_or_error :
    (∀ (ms : List Mat2) (vectors : List Vec2),
      rotate_vector_collection (MatInput.batched ms) vectors =
        np_einsum_ijk_ik_ij ms vectors) ∧
    (∀ (ms : List Mat2) (vectors : List Vec2),
      ms.length = 1 → ms.length ≠ vectors.length →
      rotate_vector_collection (MatInput.batched ms) vectors =
        Except.ok (vectors.map (matvec (ms.headD 1)))) ∧
    (∀ (ms : List Mat2) (vectors : List Vec2),
      vectors.length = 1 → ms.length ≠ vectors.length →
      rotate_vector_collection (MatInput.batched ms) vectors =
        Except.ok (ms.map (fun m => matvec m (vectors.headD (0, 0))))) ∧
    (∀ (ms : List Mat2) (vectors : List Vec2),
      ms.length ≠ vectors.length → ms.length ≠ 1 → vectors.length ≠ 1 →
      rotate_vector_collection (MatInput.batched ms) vectors =
        Except.error (PyErr.valueError "operands could not be broadcast together")) := by
  refine ⟨fun ms vs => rfl, ?_, ?_, ?_⟩
  · intro ms vs h1 hne
    show np_einsum_ijk_ik_ij ms vs = _
    rw [np_einsum_ijk_ik_ij, if_neg hne, if_pos h1]
  · intro ms vs hv1 hne
    have hm1 : ms.length ≠ 1 := by
      rw [← hv1]
      exact hne
    show np_einsum_ijk_ik_ij ms vs = _
    rw [np_einsum_ijk_ik_ij, if_neg hne, if_neg hm1, if_pos hv1]
  · intro ms vs hne hm1 hv1
    show np_einsum_ijk_ik_ij ms vs = _
    rw [np_einsum_ijk_ik_ij, if_neg hne, if_neg hm1, if_neg hv1]

/-- Witness for C9 (amended): the two broadcast cases (one matrix against
two vectors, two matrices against one vector) and the failing case
(`ms = []` against two vectors, leading lengths 0 and 2, neither 1). -/
theorem batched_mode_broadcast_or_error_witness :
    ([(1 : Mat2)].length = 1 ∧
      [(1 : Mat2)].length ≠ [((1:ℝ), (0:ℝ)), ((0:ℝ), (1:ℝ))].length ∧
      rotate_vector_collection (MatInput.batched [(1 : Mat2)])
          [((1:ℝ), (0:ℝ)), ((0:ℝ), (1:ℝ))] =
        Except.ok ([((1:ℝ), (0:ℝ)), ((0:ℝ), (1:ℝ))].map (matvec ([(1 : Mat2)].headD 1)))) ∧
    ([((1:ℝ), (0:ℝ))].length = 1 ∧
      [(1 : Mat2), (1 : Mat2)].length ≠ [((1:ℝ), (0:ℝ))].length ∧
      rotate_vector_collection (MatInput.batched [(1 : Mat2), (1 : Mat2)])
          [((1:ℝ), (0:ℝ))] =
        Except.ok ([(1 : Mat2), (1 : Mat2)].map
          (fun m => matvec m ([((1:ℝ), (0:ℝ))].headD (0, 0))))) ∧
    (([] : List Mat2).length ≠ [((1:ℝ), (0:ℝ)), ((0:ℝ), (1:ℝ))].length ∧
      rotate_vector_collection (MatInput.batched ([] : List Mat2))
          [((1:ℝ), (0:ℝ)), ((0:ℝ), (1:ℝ))] =
        Except.error (PyErr.valueError "operands could not be broadcast together")) :=
  ⟨⟨rfl, by decide,
    batched_mode_broadcast_or_error.2.1 [(1 : Mat2)]
      [((1:ℝ), (0:ℝ)), ((0:ℝ), (1:ℝ))] rfl (by decide)⟩,
   ⟨rfl, by decide,
    batched_mode_broadcast_or_error.2.2.1 [(1 : Mat2), (1 : Mat2)]
      [((1:ℝ), (0:ℝ))] rfl (by decide)⟩,
   ⟨by decide,
    batched_mode_broadcast_or_error.2.2.2 ([] : List Mat2)
      [((1:ℝ), (0:ℝ)), ((0:ℝ), (1:ℝ))] (by decide) (by decide) (by decide)⟩⟩

/-- C8: every matrix produced by `rotation_matrices_from_angles`, for any real
angle, satisfies `M * Mᵀ = 1` and `det M = 1` (exactly, in the real-number
model of the float arithmetic). -/
theorem produced_matrices_orthogonal_det_one :
    ∀ (a : AngleInput) (m : Mat2), m ∈ rotation_matrices_from_angles a →
      m * m.transpose = 1 ∧ m.det = 1 := by
  intro a m hm
  rw [rotation_matrices_from_angles] at hm
  obtain ⟨θ, -, rfl⟩ := List.mem_map.mp hm
  constructor
  · have ht : (rotFromAngle θ).transpose =
        !![Real.cos θ, -Real.sin θ; Real.sin θ, Real.cos θ] := by
      ext i j
      fin_cases i <;> fin_cases j <;> simp [rotFromAngle, Matrix.transpose_apply]
    rw [ht, show rotFromAngle θ =
      !![Real.cos θ, Real.sin θ; -Real.sin θ, Real.cos θ] from rfl]
    rw [Matrix.mul_fin_two, Matrix.one_fin_two]
    ext i j
    fin_cases i <;> fin_cases j <;> simp <;> nlinarith [Real.sin_sq_add_cos_sq θ]
  · rw [show rotFromAngle θ =
      !![Real.cos θ, Real.sin θ; -Real.sin θ, Real.cos θ] from rfl, Matrix.det_fin_two_of]
    nlinarith [Real.sin_sq_add_cos_sq θ]

/-- Witness for C8 at the angle batch `[0]` and its produced matrix. -/
theorem produced_matrices_orthogonal_det_one_witness :
    rotFromAngle 0 ∈ rotation_matrices_from_angles (AngleInput.batch [0]) ∧
    rotFromAngle 0 * (rotFromAngle 0).transpose = 1 ∧ (rotFromAngle 0).det = 1 := by
  have hmem : rotFromAngle 0 ∈ rotation_matrices_from_angles (AngleInput.batch [0]) := by
    simp [rotation_matrices_from_angles, np_atleast_1d]
  exact ⟨hmem, produced_matrices_orthogonal_det_one (AngleInput.batch [0]) (rotFromAngle 0) hmem⟩

lemma rot_onto (u0 u1 : Vec2) (h0 : norm2 u0 = 1) (h1 : norm2 u1 = 1) :
    matvec (rotFromAngle (angle2 u0 u1)) u0 = u1 := by
  obtain ⟨x0, y0⟩ := u0
  obtain ⟨x1, y1⟩ := u1
  have e0 : x0 ^ 2 + y0 ^ 2 = 1 := norm2_unit_sq (x0, y0) h0
  have e1 : x1 ^ 2 + y1 ^ 2 = 1 := norm2_unit_sq (x1, y1) h1
  have hDC : dot2 (x0, y0) (x1, y1) * dot2 (x0, y0) (x1, y1) +
      cross2 (x0, y0) (x1, y1) * cross2 (x0, y0) (x1, y1) = 1 := by
    simp only [dot2, cross2]
    nlinarith [e0, e1]
  have habs : Complex.abs ⟨dot2 (x0, y0) (x1, y1), -(cross2 (x0, y0) (x1, y1))⟩ = 1 := by
    rw [Complex.abs_apply, Complex.normSq_mk]
    rw [show dot2 (x0, y0) (x1, y1) * dot2 (x0, y0) (x1, y1) +
        -(cross2 (x0, y0) (x1, y1)) * -(cross2 (x0, y0) (x1, y1)) =
        dot2 (x0, y0) (x1, y1) * dot2 (x0, y0) (x1, y1) +
        cross2 (x0, y0) (x1, y1) * cross2 (x0, y0) (x1, y1) by ring]
    rw [hDC, Real.sqrt_one]
  have hz : (⟨dot2 (x0, y0) (x1, y1), -(cross2 (x0, y0) (x1, y1))⟩ : ℂ) ≠ 0 := by
    intro h
    rw [h] at habs
    simp at habs
  have hcos : Real.cos (angle2 (x0, y0) (x1, y1)) = dot2 (x0, y0) (x1, y1) := by
    rw [angle2, Complex.cos_arg hz, habs, div_one]
  have hsin : Real.sin (angle2 (x0, y0) (x1, y1)) = -(cross2 (x0, y0) (x1, y1)) := by
    rw [angle2, Complex.sin_arg, habs, div_one]
  simp only [matvec, rotFromAngle, Matrix.of_apply, Matrix.cons_val', Matrix.cons_val_zero,
    Matrix.cons_val_one, Matrix.head_cons, Matrix.empty_val', Matrix.cons_val_fin_one,
    Matrix.head_fin_const]
  rw [hcos, hsin]
  simp only [dot2, cross2]
  rw [Prod.mk.injEq]
  constructor
  · linear_combination x1 * e0
  · linear_combination y1 * e0

lemma normalized_of_unit (vs : List Vec2) (h : ∀ v ∈ vs, norm2 v = 1) :
    normalized_vectors vs = vs := by
  induction vs with
  | nil => rfl
  | cons a t ih =>
    have ha : norm2 a = 1 := h a (by simp)
    have ht := ih (fun v hv => h v (by simp [hv]))
    simp only [normalized_vectors, List.map_cons] at ht ⊢
    rw [ht]
    simp [unitize, ha]

lemma zip_rotate : ∀ (v0 v1 : List Vec2), v0.length = v1.length →
    (∀ v ∈ v0, norm2 v = 1) → (∀ v ∈ v1, norm2 v = 1) →
    List.zipWith matvec ((angles_between_list_of_vectors v0 v1).map rotFromAngle) v0 = v1 := by
  intro v0
  induction v0 with
  | nil =>
    intro v1 hlen _ _
    have : v1 = [] := List.length_eq_zero.mp hlen.symm
    subst this
    rfl
  | cons a t ih =>
    intro v1 hlen h0 h1
    cases v1 with
    | nil => simp at hlen
    | cons b m =>
      simp only [angles_between_list_of_vectors, List.zipWith_cons_cons, List.map_cons,
        List.cons.injEq]
      constructor
      · exact rot_onto a b (h0 a (by simp)) (h1 b (by simp))
      · exact ih m (by simpa using hlen) (fun v hv => h0 v (by simp [hv]))
          (fun v hv => h1 v (by simp [hv]))

/-- C2: for batches of unit 2D vectors `v0` and `v1` of equal length,
applying the matrices of `rotation_matrices_from_vectors(v0, v1)` to `v0`
with `rotate_vector_collection` recovers `v1` item by item (exactly, in the
real-number model of the float arithmetic). -/
theorem round_trip_rotation :
    ∀ (v0 v1 : List Vec2), v0.length = v1.length →
      (∀ v ∈ v0, norm2 v = 1) → (∀ v ∈ v1, norm2 v = 1) →
      rotate_vector_collection (MatInput.batched (rotation_matrices_from_vectors v0 v1)) v0 =
        Except.ok v1 := by
  intro v0 v1 hlen h0 h1
  rw [rotation_matrices_from_vectors, normalized_of_unit v0 h0, normalized_of_unit v1 h1]
  have hlen2 : (rotation_matrices_from_angles
      (AngleInput.batch (angles_between_list_of_vectors v0 v1))).length = v0.length := by
    simp [rotation_matrices_from_angles, np_atleast_1d, angles_between_list_of_vectors, hlen]
  simp only [rotate_vector_collection, np_einsum_ijk_ik_ij, hlen2, if_pos]
  exact congrArg Except.ok (zip_rotate v0 v1 hlen h0 h1)

/-- Witness for C2 at `v0 = [(1, 0)]`, `v1 = [(0, 1)]`. -/
theorem round_trip_rotation_witness :
    [((1:ℝ), (0:ℝ))].length = [((0:ℝ), (1:ℝ))].length ∧
    (∀ v ∈ [((1:ℝ), (0:ℝ))], norm2 v = 1) ∧
    (∀ v ∈ [((0:ℝ), (1:ℝ))], norm2 v = 1) ∧
    rotate_vector_collection
        (MatInput.batched (rotation_matrices_from_vectors [((1:ℝ), (0:ℝ))] [((0:ℝ), (1:ℝ))]))
        [((1:ℝ), (0:ℝ))] = Except.ok [((0:ℝ), (1:ℝ))] := by
  have hn0 : ∀ v ∈ [((1:ℝ), (0:ℝ))], norm2 v = 1 := by
    intro v hv
    simp only [List.mem_singleton] at hv
    subst hv
    rw [norm2]
    norm_num
  have hn1 : ∀ v ∈ [((0:ℝ), (1:ℝ))], norm2 v = 1 := by
    intro v hv
    simp only [List.mem_singleton] at hv
    subst hv
    rw [norm2]
    norm_num
  exact ⟨rfl, hn0, hn1, round_trip_rotation _ _ rfl hn0 hn1⟩

/-- Multiplication of a 2D vector by a scalar, `a * v` on an `(npts, 2)`
numpy row. -/
noncomputable def scale2 (a : ℝ) (v : Vec2) : Vec2 :=
  (a * v.1, a * v.2)

lemma unitize_scale (a : ℝ) (ha : 0 < a) (v : Vec2) :
    unitize (scale2 a v) = unitize v := by
  have hnorm : norm2 (scale2 a v) = a * norm2 v := by
    rw [norm2, norm2, scale2]
    rw [show (a * v.1) ^ 2 + (a * v.2) ^ 2 = a ^ 2 * (v.1 ^ 2 + v.2 ^ 2) by ring]
    rw [Real.sqrt_mul (by positivity), Real.sqrt_sq ha.le]
  rw [unitize, unitize, hnorm]
  simp only [scale2]
  have hane : a ≠ 0 := ne_of_gt ha
  rw [Prod.mk.injEq]
  exact ⟨mul_div_mul_left v.1 (norm2 v) hane, mul_div_mul_left v.2 (norm2 v) hane⟩

/-- C10: `rotation_matrices_from_vectors` is invariant under positive
rescaling of its inputs, because both inputs are normalized before the angle
is extracted. -/
theorem rotation_matrices_from_vectors_scale_invariant :
    ∀ (a b : ℝ) (v0 v1 : List Vec2), 0 < a → 0 < b →
      (∀ v ∈ v0, v ≠ (0, 0)) → (∀ v ∈ v1, v ≠ (0, 0)) →
      rotation_matrices_from_vectors (v0.map (scale2 a)) (v1.map (scale2 b)) =
        rotation_matrices_from_vectors v0 v1 := by
  intro a b v0 v1 ha hb _ _
  have h0 : normalized_vectors (v0.map (scale2 a)) = normalized_vectors v0 := by
    rw [normalized_vectors, normalized_vectors, List.map_map]
    refine List.map_congr_left ?_
    intro v _
    exact unitize_scale a ha v
  have h1 : normalized_vectors (v1.map (scale2 b)) = normalized_vectors v1 := by
    rw [normalized_vectors, normalized_vectors, List.map_map]
    refine List.map_congr_left ?_
    intro v _
    exact unitize_scale b hb v
  rw [rotation_matrices_from_vectors, rotation_matrices_from_vectors, h0, h1]

/-- Witness for C10 at `a = 2`, `b = 3`, `v0 = [(1, 0)]`, `v1 = [(0, 1)]`. -/
theorem rotation_matrices_from_vectors_scale_invariant_witness :
    (0:ℝ) < 2 ∧ (0:ℝ) < 3 ∧
    (∀ v ∈ [((1:ℝ), (0:ℝ))], v ≠ (0, 0)) ∧
    (∀ v ∈ [((0:ℝ), (1:ℝ))], v ≠ (0, 0)) ∧
    rotation_matrices_from_vectors ([((1:ℝ), (0:ℝ))].map (scale2 2))
        ([((0:ℝ), (1:ℝ))].map (scale2 3)) =
      rotation_matrices_from_vectors [((1:ℝ), (0:ℝ))] [((0:ℝ), (1:ℝ))] := by
  have hz0 : ∀ v ∈ [((1:ℝ), (0:ℝ))], v ≠ (0, 0) := by
    intro v hv
    simp only [List.mem_singleton] at hv
    subst hv
    simp
  have hz1 : ∀ v ∈ [((0:ℝ), (1:ℝ))], v ≠ (0, 0) := by
    intro v hv
    simp only [List.mem_singleton] at hv
    subst hv
    simp
  exact ⟨by norm_num, by norm_num, hz0, hz1,
    rotation_matrices_from_vectors_scale_invariant 2 3 _ _ (by norm_num) (by norm_num) hz0 hz1⟩

lemma listRepeat_length (l : List ℝ) : ∀ n : ℕ, (listRepeat l n).length = n * l.length := by
  intro n
  induction n with
  | zero => simp [listRepeat]
  | succ k ih =>
    simp only [listRepeat, List.length_append, ih]
    ring

/-- C4 (amended): `rotation2d` builds its reference basis vectors as
3-component rows reshaped into an `(N, 3)` array, dimensionally inconsistent
with the module's 2-component vectors and 2×2 matrices; every call fails with
a shape error — for every `N ≥ 1` the reshape of `2 N` numbers into `(N, 3)`
is invalid, and for `N = 0` the reshape trivially succeeds but the
elementwise dot of the `(0, 3)` basis against the `(0, 2)` normalized vectors
fails to broadcast.  No call ever returns silently wrong dot products. -/
theorem rotation2d_always_shape_error :
    ∀ (ux uy : List Vec2),
      (0 < ux.length →
        rotation2d ux uy = Except.error (PyErr.valueError "cannot reshape array")) ∧
      (ux.length = 0 →
        rotation2d ux uy =
          Except.error (PyErr.valueError "operands could not be broadcast together")) := by
  intro ux uy
  constructor
  · intro h
    have hne : (listRepeat [1.0, 0.0] ux.length).length ≠ ux.length * 3 := by
      rw [listRepeat_length]
      simp only [List.length_cons, List.length_nil]
      omega
    rw [rotation2d, np_reshape, if_neg hne]
    rfl
  · intro h
    have hx : ux = [] := List.length_eq_zero.mp h
    subst hx
    rfl

/-- Counterexample to C4 as stated: `N = 0` is a batch size where the reshape
IS valid (0 elements into shape `(0, 3)`), yet the call does not produce
silently wrong dot products — the elementwise dot of the `(0, 3)` basis
against the `(0, 2)` vectors raises a broadcast `ValueError` instead of
returning any result. -/
theorem rotation2d_claim_counterexample :
    (listRepeat [1.0, 0.0] ([] : List Vec2).length).length = ([] : List Vec2).length * 3 ∧
    np_reshape (listRepeat [1.0, 0.0] ([] : List Vec2).length) ([] : List Vec2).length 3 =
      Except.ok ⟨0, 3, []⟩ ∧
    rotation2d [] [] =
      Except.error (PyErr.valueError "operands could not be broadcast together") := by
  exact ⟨rfl, rfl, rfl⟩

/-- Witness for C4 (amended) at `ux = [(1, 0)]` (reshape branch) and
`ux = []` (broadcast branch). -/
theorem rotation2d_always_shape_error_witness :
    (0 < [((1:ℝ), (0:ℝ))].length ∧
      rotation2d [((1:ℝ), (0:ℝ))] [] =
        Except.error (PyErr.valueError "cannot reshape array")) ∧
    (([] : List Vec2).length = 0 ∧
      rotation2d ([] : List Vec2) [] =
        Except.error (PyErr.valueError "operands could not be broadcast together")) :=
  ⟨⟨by decide, (rotation2d_always_shape_error [((1:ℝ), (0:ℝ))] []).1 (by decide)⟩,
   ⟨rfl, (rotation2d_always_shape_error ([] : List Vec2) []).2 rfl⟩⟩

lemma norm2_unitize_eq_one (r : Vec2) (hr : r ≠ (0, 0)) : norm2 (unitize r) = 1 := by
  have hpos : 0 < r.1 ^ 2 + r.2 ^ 2 := vec_ne_zero_sq_pos r hr
  have hnr : 0 < norm2 r := Real.sqrt_pos.mpr hpos
  have hsq : norm2 r ^ 2 = r.1 ^ 2 + r.2 ^ 2 := Real.sq_sqrt hpos.le
  show Real.sqrt ((r.1 / norm2 r) ^ 2 + (r.2 / norm2 r) ^ 2) = 1
  rw [div_pow, div_pow, div_add_div_same, ← hsq, div_self (pow_ne_zero 2 hnr.ne'),
    Real.sqrt_one]

lemma dot2_unitize_right (v r : Vec2) : dot2 v (unitize r) = dot2 v r / norm2 r := by
  simp only [dot2, unitize]
  ring

lemma dot2_perp_reject (v w : Vec2) (hv : v ≠ (0, 0)) :
    dot2 v (perp_reject v w) = 0 := by
  have hpos : 0 < v.1 ^ 2 + v.2 ^ 2 := vec_ne_zero_sq_pos v hv
  have hnv : norm2 v ≠ 0 := (Real.sqrt_pos.mpr hpos).ne'
  have hsq : norm2 v ^ 2 = v.1 ^ 2 + v.2 ^ 2 := Real.sq_sqrt hpos.le
  obtain ⟨e1, e2, he⟩ : ∃ e1 e2 : ℝ, unitize w = (e1, e2) :=
    ⟨(unitize w).1, (unitize w).2, rfl⟩
  rw [perp_reject, he]
  simp only [dot2, unitize]
  field_simp
  linear_combination (v.1 * e1 + v.2 * e2) * hsq

lemma getD_zipWith_perp (vs ws : List Vec2) (i : ℕ) (hv : i < vs.length)
    (hw : i < ws.length) :
    (List.zipWith perp_pair vs ws).getD i (0, 0) =
      perp_pair (vs.getD i (0, 0)) (ws.getD i (0, 0)) := by
  have hz : i < (List.zipWith perp_pair vs ws).length := by
    rw [List.length_zipWith]
    exact lt_min hv hw
  rw [List.getD_eq_get _ _ hz, List.getD_eq_get _ _ hv, List.getD_eq_get _ _ hw]
  exact List.get_zipWith

/-- C5 (amended): the result of `random_perpendicular_directions` is the
itemwise renormalized Gram–Schmidt rejection of the drawn directions from the
inputs; whenever the input vector at a position is non-zero and the rejection
against the drawn direction at that position is non-zero (the drawn direction
is neither the zero vector nor parallel to the input — spec §4.5's degenerate
case), the returned vector at that position is exactly orthogonal to the
input and has norm exactly 1 (in the real-number model). -/
theorem perpendicular_output_unit_and_orthogonal :
    (∀ (v : VecInput) (seed : Option ℕ) (s : RngState),
      (random_perpendicular_directions v seed s).1 =
        List.zipWith perp_pair (np_atleast_2d v)
          (rpd_draw (np_atleast_2d v).length seed s)) ∧
    (∀ (vs ws : List Vec2) (i : ℕ), i < vs.length → i < ws.length →
      vs.getD i (0, 0) ≠ (0, 0) →
      perp_reject (vs.getD i (0, 0)) (ws.getD i (0, 0)) ≠ (0, 0) →
      dot2 (vs.getD i (0, 0)) ((List.zipWith perp_pair vs ws).getD i (0, 0)) = 0 ∧
      norm2 ((List.zipWith perp_pair vs ws).getD i (0, 0)) = 1) := by
  constructor
  · intro v seed s
    rfl
  · intro vs ws i hv hw hnz hrej
    rw [getD_zipWith_perp vs ws i hv hw]
    constructor
    · rw [perp_pair, dot2_unitize_right, dot2_perp_reject _ _ hnz, zero_div]
    · exact norm2_unitize_eq_one _ hrej

/-- Counterexample to C5 as stated: the draw `w = (1/2, 0)` (a possible value
of `np.random.random((1, 2))`, components in `[0, 1)`) is parallel to the
non-zero input `v = (1, 0)`, so the Gram–Schmidt rejection is the zero vector
and the final renormalization divides by zero: the float code returns
NaN/Inf, the real-number model returns `(0, 0)` — in either case not a unit
vector. -/
theorem perpendicular_claim_counterexample :
    ((0:ℝ) ≤ 1 / 2 ∧ (1 / 2 : ℝ) < 1 ∧ (0:ℝ) ≤ 0 ∧ (0:ℝ) < 1) ∧
    ((1:ℝ), (0:ℝ)) ≠ ((0:ℝ), (0:ℝ)) ∧
    perp_pair ((1:ℝ), (0:ℝ)) (1 / 2, 0) = (0, 0) ∧
    ¬ norm2 (perp_pair ((1:ℝ), (0:ℝ)) (1 / 2, 0)) = 1 := by
  have h1 : norm2 ((1:ℝ), (0:ℝ)) = 1 := by
    rw [norm2]
    norm_num
  have h2 : norm2 ((1 / 2 : ℝ), (0:ℝ)) = 1 / 2 := by
    rw [norm2, show ((1 / 2 : ℝ), (0:ℝ)).1 ^ 2 + ((1 / 2 : ℝ), (0:ℝ)).2 ^ 2 =
      (1 / 2 : ℝ) ^ 2 by norm_num]
    exact Real.sqrt_sq (by norm_num)
  have hreja : perp_reject ((1:ℝ), (0:ℝ)) (1 / 2, 0) = (0, 0) := by
    rw [perp_reject, unitize, unitize, h1, h2]
    norm_num [dot2]
  have hpair : perp_pair ((1:ℝ), (0:ℝ)) (1 / 2, 0) = (0, 0) := by
    rw [perp_pair, hreja, unitize, norm2]
    norm_num
  refine ⟨by norm_num, by simp, hpair, ?_⟩
  rw [hpair, norm2]
  norm_num

/-- Witness for C5 (amended) at `vs = [(1, 0)]`, draw `ws = [(0, 1/2)]`,
position `i = 0`. -/
theorem perpendicular_output_unit_and_orthogonal_witness :
    ((1:ℝ), (0:ℝ)) ≠ ((0:ℝ), (0:ℝ)) ∧
    perp_reject ((1:ℝ), (0:ℝ)) ((0:ℝ), 1 / 2) ≠ ((0:ℝ), (0:ℝ)) ∧
    (dot2 ((1:ℝ), (0:ℝ))
        ((List.zipWith perp_pair [((1:ℝ), (0:ℝ))] [((0:ℝ), 1 / 2)]).getD 0 (0, 0)) = 0 ∧
      norm2 ((List.zipWith perp_pair [((1:ℝ), (0:ℝ))] [((0:ℝ), 1 / 2)]).getD 0 (0, 0)) = 1) := by
  have h1 : norm2 ((1:ℝ), (0:ℝ)) = 1 := by
    rw [norm2]
    norm_num
  have h2 : norm2 ((0:ℝ), (1 / 2 : ℝ)) = 1 / 2 := by
    rw [norm2, show ((0:ℝ), (1 / 2 : ℝ)).1 ^ 2 + ((0:ℝ), (1 / 2 : ℝ)).2 ^ 2 =
      (1 / 2 : ℝ) ^ 2 by norm_num]
    exact Real.sqrt_sq (by norm_num)
  have hreja : perp_reject ((1:ℝ), (0:ℝ)) ((0:ℝ), 1 / 2) = (0, 1) := by
    rw [perp_reject, unitize, unitize, h1, h2]
    norm_num [dot2]
  have hrej : perp_reject ((1:ℝ), (0:ℝ)) ((0:ℝ), 1 / 2) ≠ ((0:ℝ), (0:ℝ)) := by
    rw [hreja]
    simp
  have hnz : ((1:ℝ), (0:ℝ)) ≠ ((0:ℝ), (0:ℝ)) := by simp
  exact ⟨hnz, hrej,
    perpendicular_output_unit_and_orthogonal.2 [((1:ℝ), (0:ℝ))] [((0:ℝ), 1 / 2)] 0
      (by simp) (by simp) hnz hrej⟩
